import Mathlib

/-!
Verification of the curriculum lookup and prompt-assembly pipeline of
`src/backend/core/lesson_generator.py`.

Strings are modelled as `List Char` (Python `str` is a sequence of code
points; `len`, slicing and concatenation correspond to `List.length`,
`List.take` and `++`).  JSON values (the Python objects produced by
`json.loads` and consumed by `json.dumps`) are modelled by the mutual
inductive types `JVal`, `JArr`, `JObj`; Python dicts are association
lists in insertion order, matching Python dict iteration order.  Python
functions that perform I/O receive the relevant external state as an
explicit argument: the loaded curriculum document, the content of the
on-disk cache directory, and the outcome of the network calls.
`json.loads` is modelled by the executable recursive-descent parser
`jsonParse` below (integers only, no floats, and the basic string
escapes; this covers every value this program produces itself) and
`json.dumps` by `jsonDumps`.
-/

/-- Single-quote character, used when building the Python error-message
strings that quote their arguments. -/
def sqc : Char := Char.ofNat 39

/-- Model of Python `str.lower` (ASCII case folding, which covers every
string this program compares). -/
def lowerS (s : List Char) : List Char := s.map Char.toLower

/-- Model of Python `str.strip` with no arguments: remove leading and
trailing whitespace. -/
def trimS (s : List Char) : List Char :=
  ((s.dropWhile Char.isWhitespace).reverse.dropWhile Char.isWhitespace).reverse

/-- Model of the Python substring test `needle in hay` on strings.  The
empty needle is contained in every string, as in Python. -/
def containsS (hay needle : List Char) : Bool :=
  match hay with
  | [] => needle.isEmpty
  | _ :: rest => needle.isPrefixOf hay || containsS rest needle

/-- Model of Python `s or d` for an optional string: `None` and the
empty string are falsy and yield the default. -/
def pyOrStr (o : Option (List Char)) (d : List Char) : List Char :=
  match o with
  | none => d
  | some s => if s.isEmpty then d else s

/-- Join a list of strings with a separator (Python `sep.join`). -/
def intercalateS (sep : List Char) : List (List Char) → List Char
  | [] => []
  | [x] => x
  | x :: rest => x ++ sep ++ intercalateS sep rest

mutual
/-- JSON values: the model of the Python objects handled by `json.loads`
and `json.dumps` in the source. -/
inductive JVal where
  | null
  | bool (b : Bool)
  | num (n : Int)
  | str (s : List Char)
  | arr (items : JArr)
  | obj (fields : JObj)

/-- A JSON array (Python list). -/
inductive JArr where
  | nil
  | cons (hd : JVal) (tl : JArr)

/-- A JSON object (Python dict), keys in insertion order. -/
inductive JObj where
  | nil
  | cons (key : List Char) (val : JVal) (tl : JObj)
end

/-- Build a `JArr` from a Lean list, for writing concrete documents. -/
def jarr : List JVal → JArr
  | [] => .nil
  | v :: rest => .cons v (jarr rest)

/-- Build a `JObj` from a Lean association list. -/
def jobj : List (List Char × JVal) → JObj
  | [] => .nil
  | (k, v) :: rest => .cons k v (jobj rest)

/-- Key lookup in a modelled Python dict (`d[k]` / `k in d` / `d.get`). -/
def lookupS : JObj → List Char → Option JVal
  | .nil, _ => none
  | .cons k v rest, key => if k = key then some v else lookupS rest key

/-- Key lookup in a plain Lean association list (used for the two fixed
outer levels of the curriculum document). -/
def lookupP {α : Type} : List (List Char × α) → List Char → Option α
  | [], _ => none
  | (k, v) :: rest, key => if k = key then some v else lookupP rest key

/-- Python truthiness of a JSON value (`if x:`). -/
def pyTruthy : JVal → Bool
  | .null => false
  | .bool b => b
  | .num n => n != 0
  | .str s => !s.isEmpty
  | .arr .nil => false
  | .arr _ => true
  | .obj .nil => false
  | .obj _ => true

/-- Whether a JSON value is a Python dict (`isinstance(x, dict)`). -/
def isDict : JVal → Bool
  | .obj _ => true
  | _ => false

/-- Whether a JSON value is a dict or a list
(`isinstance(x, (dict, list))`). -/
def isDictOrList : JVal → Bool
  | .obj _ => true
  | .arr _ => true
  | _ => false

/-- String escaping as performed by `json.dumps` (the characters this
program serialises are ASCII and need no `\u` form). -/
def jsonEscapeChar (c : Char) : List Char :=
  if c = '"' then ['\\', '"']
  else if c = '\\' then ['\\', '\\']
  else if c = '\n' then ['\\', 'n']
  else if c = '\t' then ['\\', 't']
  else if c = '\r' then ['\\', 'r']
  else [c]

/-- Decimal digits of a natural number (fuel-indexed division loop). -/
def natToCharsAux : Nat → Nat → List Char
  | 0, _ => []
  | _ + 1, 0 => []
  | fuel + 1, n => natToCharsAux fuel (n / 10) ++ [Char.ofNat (48 + n % 10)]

/-- Decimal representation of a natural number. -/
def natToChars (n : Nat) : List Char :=
  if n = 0 then ['0'] else natToCharsAux (n + 1) n

/-- Decimal representation of an integer. -/
def intToChars (n : Int) : List Char :=
  if n < 0 then '-' :: natToChars n.natAbs else natToChars n.natAbs

/-- Serialisation of a JSON string literal. -/
def dumpStrLit (s : List Char) : List Char :=
  '"' :: (s.flatMap jsonEscapeChar ++ ['"'])

mutual
/-- Model of `json.dumps` with the default separators `", "` and `": "`. -/
def jsonDumps : JVal → List Char
  | .null => "null".data
  | .bool true => "true".data
  | .bool false => "false".data
  | .num n => intToChars n
  | .str s => dumpStrLit s
  | .arr l => '[' :: (jsonDumpsArr l ++ [']'])
  | .obj m => '\x7b' :: (jsonDumpsObj m ++ ['\x7d'])

/-- Serialisation of the members of a JSON array. -/
def jsonDumpsArr : JArr → List Char
  | .nil => []
  | .cons v .nil => jsonDumps v
  | .cons v rest => jsonDumps v ++ ", ".data ++ jsonDumpsArr rest

/-- Serialisation of the members of a JSON object. -/
def jsonDumpsObj : JObj → List Char
  | .nil => []
  | .cons k v .nil => dumpStrLit k ++ ": ".data ++ jsonDumps v
  | .cons k v rest => dumpStrLit k ++ ": ".data ++ jsonDumps v ++ ", ".data ++ jsonDumpsObj rest
end

/-- JSON whitespace skipping. -/
def skipWs (s : List Char) : List Char :=
  s.dropWhile (fun c => c = ' ' || c = '\n' || c = '\t' || c = '\r')

/-- Parse the body of a JSON string literal (the opening quote already
consumed); returns the decoded characters and the rest of the input. -/
def parseStrBody : List Char → Option (List Char × List Char)
  | [] => none
  | '"' :: rest => some ([], rest)
  | '\\' :: e :: rest =>
    (match e with
     | '"' => some '"'
     | '\\' => some '\\'
     | '/' => some '/'
     | 'n' => some '\n'
     | 't' => some '\t'
     | 'r' => some '\r'
     | _ => none).bind fun c =>
      (parseStrBody rest).map fun (p : List Char × List Char) => (c :: p.1, p.2)
  | c :: rest => (parseStrBody rest).map fun (p : List Char × List Char) => (c :: p.1, p.2)

/-- Parse a run of decimal digits. -/
def parseDigits : List Char → (List Char × List Char)
  | [] => ([], [])
  | c :: rest =>
    if c.isDigit then
      let p := parseDigits rest
      (c :: p.1, p.2)
    else ([], c :: rest)

/-- Digits to a natural number. -/
def digitsToNat (ds : List Char) : Nat :=
  ds.foldl (fun acc c => acc * 10 + (c.toNat - 48)) 0

mutual
/-- Recursive-descent JSON value parser, fuel-indexed so that the
recursion is structural; `jsonParse` supplies enough fuel for any input. -/
def parseVal (fuel : Nat) (s : List Char) : Option (JVal × List Char) :=
  match fuel with
  | 0 => none
  | fuel + 1 =>
    match skipWs s with
    | '\x7b' :: rest => (parseObjFields fuel rest true).map fun p => (.obj p.1, p.2)
    | '[' :: rest => (parseArrItems fuel rest true).map fun p => (.arr p.1, p.2)
    | '"' :: rest => (parseStrBody rest).map fun p => (.str p.1, p.2)
    | 't' :: 'r' :: 'u' :: 'e' :: rest => some (.bool true, rest)
    | 'f' :: 'a' :: 'l' :: 's' :: 'e' :: rest => some (.bool false, rest)
    | 'n' :: 'u' :: 'l' :: 'l' :: rest => some (.null, rest)
    | '-' :: rest =>
      (match parseDigits rest with
       | ([], _) => none
       | (ds, rem) => some (.num (-(digitsToNat ds : Int)), rem))
    | c :: rest =>
      if c.isDigit then
        (match parseDigits (c :: rest) with
         | ([], _) => none
         | (ds, rem) => some (.num (digitsToNat ds : Int), rem))
      else none
    | [] => none

/-- Parse the members of a JSON object after the opening brace; `first`
records whether no member has been consumed yet. -/
def parseObjFields (fuel : Nat) (s : List Char) (first : Bool) : Option (JObj × List Char) :=
  match fuel with
  | 0 => none
  | fuel + 1 =>
    match skipWs s with
    | '\x7d' :: rest => if first then some (.nil, rest) else none
    | '"' :: rest =>
      (parseStrBody rest).bind fun p =>
        match skipWs p.2 with
        | ':' :: rem2 =>
          (parseVal fuel rem2).bind fun q =>
            match skipWs q.2 with
            | ',' :: rem4 =>
              (parseObjFields fuel rem4 false).map fun r => (.cons p.1 q.1 r.1, r.2)
            | '\x7d' :: rem4 => some (.cons p.1 q.1 .nil, rem4)
            | _ => none
        | _ => none
    | _ => none

/-- Parse the members of a JSON array after the opening bracket. -/
def parseArrItems (fuel : Nat) (s : List Char) (first : Bool) : Option (JArr × List Char) :=
  match fuel with
  | 0 => none
  | fuel + 1 =>
    match skipWs s with
    | ']' :: rest => if first then some (.nil, rest) else none
    | _ =>
      (parseVal fuel s).bind fun p =>
        match skipWs p.2 with
        | ',' :: rem2 =>
          (parseArrItems fuel rem2 false).map fun q => (.cons p.1 q.1, q.2)
        | ']' :: rem2 => some (.cons p.1 .nil, rem2)
        | _ => none
end

/-- Model of `json.loads`: parse a complete JSON document, requiring the
whole input to be consumed. -/
def jsonParse (s : List Char) : Option JVal :=
  match parseVal (s.length + 1) s with
  | some (v, rest) => if skipWs rest = [] then some v else none
  | none => none

/-- Canonical band returned for junior-secondary inputs. -/
def JSS_BAND : List Char := "Junior Secondary 1–3".data

/-- Canonical band for lower primary. -/
def P13_BAND : List Char := "Primary 1–3".data

/-- Canonical band for upper primary. -/
def P46_BAND : List Char := "Primary 4–6".data

/-- The JSS test of `normalize_grade`:
`any(term in grade_lower for term in ["jss", "junior secondary", "js"])`. -/
def jssHit (gl : List Char) : Bool :=
  containsS gl ("jss".data) || containsS gl ("junior secondary".data) || containsS gl ("js".data)

/-- The primary test of `normalize_grade`:
`"primary" in grade_lower or "pri" in grade_lower`. -/
def priHit (gl : List Char) : Bool :=
  containsS gl ("primary".data) || containsS gl ("pri".data)

/-- The digit-scanning loop of `normalize_grade`: walk the characters
left to right; at the first digit, map 1-3 to the lower band and 4-6 to
the upper band, then leave the loop (so any other first digit falls to
the default); with no digit at all, default to the lower band. -/
def primaryBand : List Char → List Char
  | [] => P13_BAND
  | c :: rest =>
    if c.isDigit then
      let num := c.toNat - 48
      if num = 1 ∨ num = 2 ∨ num = 3 then P13_BAND
      else if num = 4 ∨ num = 5 ∨ num = 6 then P46_BAND
      else P13_BAND
    else primaryBand rest

/-- Model of `normalize_grade` (source lines 52-89). -/
def normalize_grade (grade : List Char) : List Char :=
  let grade_lower := trimS (lowerS grade)
  if jssHit grade_lower then JSS_BAND
  else if priHit grade_lower then primaryBand grade_lower
  else if grade_lower = "junior secondary 1–3".data then JSS_BAND
  else if grade_lower = "primary 1–3".data then P13_BAND
  else if grade_lower = "primary 4–6".data then P46_BAND
  else grade

/-- The fixed synonym table of `normalize_subject`, in source order. -/
def subject_mappings : List (List Char × List Char) :=
  [ ("english".data, "english_studies".data)
  , ("mathematics".data, "maths".data)
  , ("math".data, "maths".data)
  , ("science".data, "basic_science_technology".data)
  , ("basic science".data, "basic_science_technology".data)
  , ("technology".data, "basic_science_technology".data)
  , ("creative arts".data, "cca".data)
  , ("arts".data, "cca".data)
  , ("cca".data, "cca".data)
  , ("christian religious studies".data, "crs".data)
  , ("crs".data, "crs".data)
  , ("islamic studies".data, "islamic".data)
  , ("islamic".data, "islamic".data)
  , ("hausa".data, "hausa".data)
  , ("igbo".data, "igbo".data)
  , ("yoruba".data, "yoruba".data)
  , ("french".data, "french".data)
  , ("arabic".data, "arabic".data)
  , ("history".data, "history".data)
  , ("nvc".data, "nvc".data)
  , ("prevoc".data, "prevoc".data) ]

/-- Model of `normalize_subject` (source lines 92-129):
`subject_mappings.get(subject_lower, subject)`. -/
def normalize_subject (subject : List Char) : List Char :=
  let subject_lower := trimS (lowerS subject)
  match lookupP subject_mappings subject_lower with
  | some v => v
  | none => subject

/-- Bidirectional substring containment used by the topic search:
`search_topic_lower in topic_name or topic_name in search_topic_lower`
(first argument the lowered/trimmed topic name, second the
lowered/trimmed query). -/
def bidiMatch (topic_name ql : List Char) : Bool :=
  containsS topic_name ql || containsS ql topic_name

/-- One topic item of the THEMES drill-down: a dict carrying a
`"TOPIC NAME"` string that matches the query bidirectionally.  A
non-dict item, a missing name, and a non-string name yield no match (a
non-string name would raise in Python and abort the whole lookup; it is
modelled as a skip, and no claim depends on that corner). -/
def matchTopicItem (ql : List Char) (topic_item : JVal) : Option JVal :=
  match topic_item with
  | .obj m =>
    (match lookupS m ("TOPIC NAME".data) with
     | some (.str name) => if bidiMatch (trimS (lowerS name)) ql then some topic_item else none
     | _ => none)
  | _ => none

/-- The innermost loop of the drill-down: scan a `"TOPICS"` list. -/
def scanTopics (ql : List Char) : JArr → Option JVal
  | .nil => none
  | .cons topic_item rest =>
    match matchTopicItem ql topic_item with
    | some r => some r
    | none => scanTopics ql rest

/-- One sub-theme of the drill-down: a dict with a `"TOPICS"` list has
its topics scanned; anything else yields nothing. -/
def subThemeScan (ql : List Char) (sub_theme : JVal) : Option JVal :=
  match sub_theme with
  | .obj m =>
    (match lookupS m ("TOPICS".data) with
     | some (.arr topics) => scanTopics ql topics
     | _ => none)
  | _ => none

/-- Scan a `"SUB THEMES"` list: each dict sub-theme with a `"TOPICS"`
list has its topics scanned. -/
def scanSubThemes (ql : List Char) : JArr → Option JVal
  | .nil => none
  | .cons sub_theme rest =>
    match subThemeScan ql sub_theme with
    | some r => some r
    | none => scanSubThemes ql rest

/-- One theme of the drill-down: a dict with a `"SUB THEMES"` list has
its sub-themes scanned; anything else yields nothing. -/
def themeScan (ql : List Char) (theme : JVal) : Option JVal :=
  match theme with
  | .obj m =>
    (match lookupS m ("SUB THEMES".data) with
     | some (.arr sub_themes) => scanSubThemes ql sub_themes
     | _ => none)
  | _ => none

/-- Scan a `"THEMES"` list: each dict theme with a `"SUB THEMES"` list
has its sub-themes scanned. -/
def scanThemes (ql : List Char) : JArr → Option JVal
  | .nil => none
  | .cons theme rest =>
    match themeScan ql theme with
    | some r => some r
    | none => scanThemes ql rest

mutual
/-- Model of the inner function `search_topic_recursive` (source lines
194-231).  At a dict node, first run the THEMES drill-down
(`THEMES` list -> dict themes with a `SUB THEMES` list -> dict
sub-themes with a `TOPICS` list -> dict topic items with a
`TOPIC NAME`), returning the first bidirectional match; if that finds
nothing, recurse into every dict or list value in key order.  At a list
node, recurse into every dict or list element in order.  The Python
`if result:` test on a returned item is modelled by `some`: every
returned item is a non-empty dict, hence truthy. -/
def search_topic_recursive (q : List Char) : JVal → Option JVal
  | .obj m =>
    (match
      (match lookupS m ("THEMES".data) with
       | some (.arr themes) => scanThemes (trimS (lowerS q)) themes
       | _ => none) with
     | some r => some r
     | none => searchObjValues q m)
  | .arr l => searchArrItems q l
  | _ => none

/-- Recurse into the values of a dict node, first hit wins. -/
def searchObjValues (q : List Char) : JObj → Option JVal
  | .nil => none
  | .cons _ v rest =>
    match (if isDictOrList v then search_topic_recursive q v else none) with
    | some r => some r
    | none => searchObjValues q rest

/-- Recurse into the elements of a list node, first hit wins. -/
def searchArrItems (q : List Char) : JArr → Option JVal
  | .nil => none
  | .cons v rest =>
    match (if isDictOrList v then search_topic_recursive q v else none) with
    | some r => some r
    | none => searchArrItems q rest
end

/-- The curriculum document: a dict from canonical grade-band name to a
dict from canonical subject key to the subject-specific nested tree.
The outer two levels are fixed by the data model; the subject tree has
arbitrary shape. -/
def Curriculum : Type := List (List Char × List (List Char × JVal))

/-- Python `str()` of a list of strings, as interpolated by the f-string
error messages (`repr` quoting of each element; the curriculum keys
contain no quote characters, so no escaping arises). -/
def pyReprList (l : List (List Char)) : List Char :=
  '[' :: (intercalateS (", ".data) (l.map (fun k => sqc :: (k ++ [sqc]))) ++ [']'])

/-- The error-result dict shared by every failure path of
`get_curriculum_objectives`: the message under `"error"` plus an empty
list for each of the five expected fields, in source key order. -/
def errResult (msg : List Char) : List (List Char × JVal) :=
  [ ("error".data, .str msg)
  , ("objectives".data, .arr .nil)
  , ("content".data, .arr .nil)
  , ("teacher_activities".data, .arr .nil)
  , ("student_activities".data, .arr .nil)
  , ("resources".data, .arr .nil) ]

/-- The success projection of `get_curriculum_objectives` (source lines
247-257): the five fields with empty-list defaults, the student field
trying the `STUDENTS` key and then the legacy `PUPILS` key, plus the
topic name when present.  The search only returns dict items, so the
non-dict arm is unreachable; it is given the error-dict shape of the
enclosing exception handler. -/
def gco_project : JVal → List (List Char × JVal)
  | .obj m =>
    [ ("objectives".data, (lookupS m ("PERFORMANCE OBJECTIVES".data)).getD (.arr .nil))
    , ("content".data, (lookupS m ("CONTENT".data)).getD (.arr .nil))
    , ("teacher_activities".data, (lookupS m ("TEACHER ACTIVITIES".data)).getD (.arr .nil))
    , ("student_activities".data,
        (lookupS m ("STUDENTS ACTIVITIES".data)).getD
          ((lookupS m ("PUPILS ACTIVITIES".data)).getD (.arr .nil)))
    , ("resources".data, (lookupS m ("TEACHING AND LEARNING RESOURCES".data)).getD (.arr .nil)) ]
    ++ (match lookupS m ("TOPIC NAME".data) with
        | some v => [("topic_name".data, v)]
        | none => [])
  | _ => errResult ("Error retrieving curriculum objectives: not a topic record".data)

/-- Stage 3 of `get_curriculum_objectives`: the topic search over the
subject subtree (source lines 234-244). -/
def gco_from_subject (subject_data : JVal) (topic s g : List Char) : List (List Char × JVal) :=
  match search_topic_recursive topic subject_data with
  | none =>
    errResult ("Topic ".data ++ [sqc] ++ topic ++ [sqc] ++ " not found in ".data ++ s
      ++ " for ".data ++ g)
  | some topic_data => gco_project topic_data

/-- Stage 2 of `get_curriculum_objectives`: the subject-key check
(source lines 180-191). -/
def gco_from_grade (grade_data : List (List Char × JVal)) (topic s g : List Char) :
    List (List Char × JVal) :=
  match lookupP grade_data s with
  | none =>
    errResult ("Subject ".data ++ [sqc] ++ s ++ [sqc] ++ " not found in ".data ++ g
      ++ ". Available subjects: ".data ++ pyReprList (grade_data.map Prod.fst))
  | some subject_data => gco_from_subject subject_data topic s g

/-- Stage 1 of `get_curriculum_objectives`: the grade-key check (source
lines 166-177). -/
def gco_from_doc (curriculum_data : Curriculum) (topic s g : List Char) :
    List (List Char × JVal) :=
  match lookupP curriculum_data g with
  | none =>
    errResult ("Grade ".data ++ [sqc] ++ g ++ [sqc] ++ " not found. Available grades: ".data
      ++ pyReprList (curriculum_data.map Prod.fst))
  | some grade_data => gco_from_grade grade_data topic s g

/-- Model of `get_curriculum_objectives` (source lines 132-269), staged
through the helpers above.  The curriculum file is passed in (`none`
models a missing `curriculum_map.json`); the enclosing `try`/`except`
of the source converts any internal exception into the same error-dict
shape, so the modelled function is total. -/
def get_curriculum_objectives (cur : Option Curriculum)
    (grade subject topic : List Char) : List (List Char × JVal) :=
  match cur with
  | none => errResult ("Curriculum map not found. Please run merge_curriculums.py first.".data)
  | some curriculum_data =>
    gco_from_doc curriculum_data topic (normalize_subject subject) (normalize_grade grade)

/-- Model of `_cache_key` (source lines 272-274): the request tuple
serialised with `json.dumps(..., sort_keys=True)` (a no-op on an array
payload).  The source hashes this string with SHA-256 and uses the hex
digest as the file name; the hash step is modelled as the identity on
the serialised tuple, an injective stand-in. -/
def cache_key (subject grade topic : List Char) (teacher_input : Option (List Char))
    (language : List Char) (summary_mode : Bool) : List Char :=
  jsonDumps (.arr (jarr
    [ .str subject, .str grade, .str topic
    , .str (match teacher_input with | none => [] | some s => s)
    , .str language, .bool summary_mode ]))

/-- Outcome of one external provider call. -/
inductive ProviderOutcome where
  | raises (msg : List Char)
  | returns (text : List Char)

/-- The external state consumed by `_call_llm`: whether each provider
branch is configured (its module imported and its environment variables
set) and the outcome of its network call.  The generic HTTP branch
(source lines 322-354) is abstracted to a reply string or a caught
exception; its response-shape handling is not load-bearing for any
claim. -/
structure LlmEnv where
  gemini_configured : Bool
  gemini : ProviderOutcome
  http_configured : Bool
  http : ProviderOutcome

/-- The offline fallback template returned by `_call_llm` when no
provider produces a reply (source lines 357-376). -/
def offline_fallback_plan : JVal :=
  .obj (jobj
    [ ("title".data, .str "Sample Lesson Plan".data)
    , ("objectives".data, .arr (jarr
        [ .str "Students will understand the topic".data
        , .str "Students will apply key concepts".data ]))
    , ("learning_outcomes".data, .arr (jarr
        [ .str "Demonstrate understanding".data
        , .str "Complete exercises correctly".data ]))
    , ("introduction".data, .str "Begin with a brief introduction to engage students and activate prior knowledge.".data)
    , ("activities".data, .arr (jarr
        [ .str "Warm-up activity (5 minutes)".data
        , .str "Main lesson presentation (15 minutes)".data
        , .str "Guided practice (10 minutes)".data
        , .str "Independent work (10 minutes)".data
        , .str "Wrap-up and review (5 minutes)".data ]))
    , ("differentiation".data, .arr (jarr
        [ .str "Provide extra support for struggling learners".data
        , .str "Offer extension activities for advanced students".data ]))
    , ("materials".data, .arr (jarr
        [ .str "Chalkboard".data, .str "Textbooks".data, .str "Writing materials".data ]))
    , ("assessment".data, .arr (jarr
        [ .str "Observe student participation".data
        , .str "Check completed exercises".data
        , .str "Ask comprehension questions".data ]))
    , ("classroom_management".data, .arr (jarr
        [ .str "Ensure all students can see and hear".data
        , .str "Move around the classroom".data
        , .str "Use positive reinforcement".data ]))
    , ("extension".data, .str "Assign related homework or encourage students to explore the topic further".data)
    , ("low_data_version".data, .str "Present key concepts clearly, have students practice with available materials, assess understanding through simple questions.".data)
    , ("notes".data, .str "This is a fallback lesson plan template. Configure Gemini API for AI-generated content.".data) ])

/-- Model of `_call_llm` (source lines 294-376).  The Gemini branch
returns `response.text.strip()` when the response is truthy and
non-empty; an exception or an empty reply falls through (`returns []`
models an empty or blocked `response.text`).  The HTTP branch likewise
falls through on a caught exception.  The final fallback returns the
serialised offline template.  Every exception of a provider call is
caught inside this function, so it is total. -/
def call_llm (env : LlmEnv) (_prompt : List Char) : List Char :=
  match
    (if env.gemini_configured then
      match env.gemini with
      | .returns t => if !t.isEmpty then some (trimS t) else none
      | .raises _ => none
    else none) with
  | some t => t
  | none =>
    match
      (if env.http_configured then
        match env.http with
        | .returns t => some t
        | .raises _ => none
      else none) with
    | some t => t
    | none => jsonDumps offline_fallback_plan
/-- Segment 0 of PROMPT_TEMPLATE, the text between two placeholders. -/
def PROMPT_seg0 : List Char :=
  "\nYou are an expert curriculum designer and veteran primary/secondary teacher who writes short, practical, context-aware lesson plans for low(or high)-resource  classrooms in Nigeria.\nYour job: produce a single, tightly-structured lesson plan JSON for the teacher\x27s input below. Be concise and practical.\n\nCONTEXT (Curriculum objectives found for the requested topic):\n".data

/-- Segment 1 of PROMPT_TEMPLATE, the text between two placeholders. -/
def PROMPT_seg1 : List Char :=
  "\n\nTEACHER INPUT:\n- Grade: ".data

/-- Segment 2 of PROMPT_TEMPLATE, the text between two placeholders. -/
def PROMPT_seg2 : List Char :=
  "\n- Subject: ".data

/-- Segment 3 of PROMPT_TEMPLATE, the text between two placeholders. -/
def PROMPT_seg3 : List Char :=
  "\n- Topic: ".data

/-- Segment 4 of PROMPT_TEMPLATE, the text between two placeholders. -/
def PROMPT_seg4 : List Char :=
  "\n- Language: ".data

/-- Segment 5 of PROMPT_TEMPLATE, the text between two placeholders. -/
def PROMPT_seg5 : List Char :=
  "\n- Classroom context: ".data

/-- Segment 6 of PROMPT_TEMPLATE, the text between two placeholders. -/
def PROMPT_seg6 : List Char :=
  "\n- Available materials/tools (teacher provided): ".data

/-- Segment 7 of PROMPT_TEMPLATE, the text between two placeholders. -/
def PROMPT_seg7 : List Char :=
  "\n- Output mode: ".data

/-- Segment 8 of PROMPT_TEMPLATE, the text between two placeholders. -/
def PROMPT_seg8 : List Char :=
  "\n\nREQUIREMENTS:\n1) Return **only valid JSON** (no explanations or markdown). The top-level object must include exactly these keys:\n   - title (string)\n   - objectives (list of 2–4 short statements)\n   - learning_outcomes (list of 2–4 measurable results)\n   - introduction (1–2 brief paragraphs that engage students)\n   - activities (list of clear, time-bounded steps)\n   - differentiation (brief tips for mixed-ability or large classes)\n   - materials (list of local, affordable items teachers can use)\n   - assessment (2–4 simple evaluation ideas or tasks)\n   - classroom_management (2–3 short practical reminders)\n   - extension (optional homework or follow-up activity)\n   - low_data_version (string) – one compact, printable paragraph version\n   - notes (brief classroom or cultural considerations)\n2) Keep all examples and contexts realistic for Nigerian classrooms.\n3) Use simple English and include relatable local examples (market, farm, home, road, etc.).\n4) If curriculum_context is empty, produce a generic plan aligned with the subject and grade.\n5) If the teacher provided specific materials, integrate them into at least one activity.\n6) If ".data

/-- Segment 9 of PROMPT_TEMPLATE, the text between two placeholders. -/
def PROMPT_seg9 : List Char :=
  " == \"short\", create a compact version with 1–2 objectives and fewer activities.\n7) Keep the response appropriate for children and focused on learning content only.\n8) Be concise and practical; avoid unnecessary commentary.\n\nHere are two JSON examples to show format (ONLY for structure, not content):\n\nEXAMPLE 1:\n\x7b \"title\":\"Local Fractions (Primary 4)\",\n   \"objectives\":[\"Understand halves and quarters\",\"Use everyday objects to demonstrate fractions\"],\n   \"learning_outcomes\":[\"Divide an object into 2 equal parts\",\"Identify halves in pictures\"],\n   \"introduction\":\"Ask pupils if they have shared food before. Discuss what \x27half\x27 means.\",\n   \"activities\":[\"Starter (5 min): Show a mango, cut into halves.\",\"Main: pupils divide paper shapes.\",\"Wrap-up: discuss what makes equal parts.\"],\n   \"differentiation\":[\"Pair learners by ability\",\"Use larger objects for pupils with low vision\"],\n   \"materials\":[\"mango or orange\",\"chalk\",\"paper\"],\n   \"assessment\":[\"Draw half of a shape\",\"Group discussion check\"],\n   \"classroom_management\":[\"Keep groups small\",\"Monitor material use\"],\n   \"extension\":\"Ask pupils to find examples of halves at home.\",\n   \"low_data_version\":\"Show a fruit and ask pupils to divide a drawing into halves.\",\n   \"notes\":\"Be fair when using food examples.\"\x7d\n\nEXAMPLE 2:\n\x7b \"title\":\"Introduction to Soil and Plants (Primary 5)\",\n   \"objectives\":[\"Identify common soil types\",\"Understand the role of soil in plant growth\"],\n   \"learning_outcomes\":[\"Classify soil samples\",\"Describe how soil supports plants\"],\n   \"introduction\":\"Display three soil samples and ask pupils to describe their differences.\",\n   \"activities\":[\"Observation (10 min): pupils touch and compare soils.\",\"Experiment: plant a seed in each type.\",\"Discussion: which soil helped growth best?\"],\n   \"differentiation\":[\"Provide visual aids for pupils with difficulty writing\",\"Encourage peer explanation\"],\n   \"materials\":[\"bottles\",\"local soil samples\",\"beans\",\"labels\"],\n   \"assessment\":[\"Short oral questions\",\"Practical demonstration\"],\n   \"classroom_management\":[\"Ensure safe handling of soil\",\"Organize group tasks clearly\"],\n   \"extension\":\"Ask pupils to observe soil at home or on farms.\",\n   \"low_data_version\":\"Compare three soil types using touch and sight; discuss which grows plants better.\",\n   \"notes\":\"Ensure pupils wash hands after the activity.\"\x7d\n\nEND PROMPT.\n".data


/-- The result of `PROMPT_TEMPLATE.format(...)`: the ten fixed segments
of the template with the eight arguments spliced in between, in
placeholder order (`output_mode` appears twice, in the TEACHER INPUT
block and in requirement 6). -/
def PROMPT_TEMPLATE_fmt (curriculum_context grade subject topic language classroom_context
    teacher_input output_mode : List Char) : List Char :=
  PROMPT_seg0 ++ curriculum_context ++ PROMPT_seg1 ++ grade ++ PROMPT_seg2 ++ subject
    ++ PROMPT_seg3 ++ topic ++ PROMPT_seg4 ++ language ++ PROMPT_seg5 ++ classroom_context
    ++ PROMPT_seg6 ++ teacher_input ++ PROMPT_seg7 ++ output_mode ++ PROMPT_seg8
    ++ output_mode ++ PROMPT_seg9

/-- Step 3 of `generate_lesson_plan` (source lines 522-531): substitute
the inputs into the fixed template, defaulting `teacher_input` through
the Python `or` idiom and collapsing `output_mode` to one of the two
literal tokens. -/
def build_prompt (curriculum_context grade subject topic language classroom_context : List Char)
    (teacher_input : Option (List Char)) (output_mode : List Char) : List Char :=
  PROMPT_TEMPLATE_fmt curriculum_context grade subject topic language classroom_context
    (pyOrStr teacher_input ("None provided".data))
    (if output_mode = "short".data then "short".data else "full".data)

/-- Python `str()` of a field value as interpolated into a context line
(the values that occur are strings; other shapes are modelled as the
empty string). -/
def strVal : JVal → List Char
  | .str s => s
  | _ => []

/-- The string members of a JSON array, for `"; ".join(...)` (a
non-string member would raise in Python; modelled as empty, and no
claim depends on that corner). -/
def jarrToStrs : JArr → List (List Char)
  | .nil => []
  | .cons v rest => strVal v :: jarrToStrs rest

/-- Model of `"; ".join(x)` for a curriculum field. -/
def joinSemi : JVal → List Char
  | .arr l => intercalateS ("; ".data) (jarrToStrs l)
  | _ => []

/-- The content-line truncation (source lines 497-499): over 500
characters, keep 497 and append the marker. -/
def trunc500 (s : List Char) : List Char :=
  if 500 < s.length then s.take 497 ++ "...".data else s

/-- The teacher-activities truncation (source lines 503-505): over 300
characters, keep 297 and append the marker. -/
def trunc300 (s : List Char) : List Char :=
  if 300 < s.length then s.take 297 ++ "...".data else s

/-- The context assembly of `generate_lesson_plan` for a successful
lookup (source lines 488-508): the non-empty parts joined by `" | "`. -/
def format_curriculum_context (co : List (List Char × JVal)) : List Char :=
  let getp := fun (k : List Char) => (lookupP co k).getD .null
  intercalateS (" | ".data)
    ((if pyTruthy (getp ("topic_name".data)) then
        ["Topic: ".data ++ strVal (getp ("topic_name".data))] else [])
     ++ (if pyTruthy (getp ("objectives".data)) then
        ["Performance Objectives: ".data ++ joinSemi (getp ("objectives".data))] else [])
     ++ (if pyTruthy (getp ("content".data)) then
        ["Content: ".data ++ trunc500 (joinSemi (getp ("content".data)))] else [])
     ++ (if pyTruthy (getp ("teacher_activities".data)) then
        ["Teacher Activities: ".data ++ trunc300 (joinSemi (getp ("teacher_activities".data)))] else []))

/-- The auto-retrieval branch of step 2 (source lines 484-510): derive
the context from the curriculum lookup, or an explanatory one-liner when
the lookup carries an `"error"` key. -/
def auto_context (cur : Option Curriculum) (grade subject topic : List Char) : List Char :=
  let curriculum_objectives := get_curriculum_objectives cur grade subject topic
  match lookupP curriculum_objectives ("error".data) with
  | none => format_curriculum_context curriculum_objectives
  | some e =>
    "(auto-retrieval failed: ".data
      ++ (match e with
          | .str m => m
          | _ => "unknown error".data)
      ++ ")".data

/-- The length sanitisation of step 2 (source lines 513-519): strip a
non-empty context and hard-truncate over 4000 characters to 3900 plus
the marker; an empty context becomes the fixed placeholder line. -/
def sanitize_context (curriculum_context : List Char) : List Char :=
  if !curriculum_context.isEmpty then
    let c := trimS curriculum_context
    if 4000 < c.length then c.take 3900 ++ " ... [truncated]".data else c
  else "(no curriculum context provided)".data

/-- Model of `re.search(r"(\{[\s\S]*\})", raw)` (source line 543): the
pattern is greedy, so a match runs from the first opening brace to the
last closing brace that follows it; no such pair means no match. -/
def extract_braces (raw : List Char) : Option (List Char) :=
  match raw.dropWhile (fun c => c ≠ '\x7b') with
  | [] => none
  | l =>
    match l.reverse.dropWhile (fun c => c ≠ '\x7d') with
    | [] => none
    | r => some r.reverse

/-- Step 5 of `generate_lesson_plan` (source lines 537-550), the
response interpreter: strict parse, then brace extraction and re-parse,
then an error dict carrying the raw text. -/
def interpret (raw : List Char) : JVal :=
  match jsonParse raw with
  | some v => v
  | none =>
    match extract_braces raw with
    | some sub =>
      (match jsonParse sub with
       | some v => v
       | none => .obj (jobj
           [ ("error".data, .str "Failed to parse JSON from LLM output".data)
           , ("raw".data, .str raw) ]))
    | none => .obj (jobj
        [ ("error".data, .str "LLM did not return JSON".data)
        , ("raw".data, .str raw) ])

/-- The external state consumed by `generate_lesson_plan`: the cache
directory content (a map from serialised cache key to the stored JSON,
`none` for a missing or unreadable file), the curriculum document, and
the LLM environment. -/
structure GenEnv where
  cache : List Char → Option JVal
  curriculum : Option Curriculum
  llm : LlmEnv

/-- The value returned by `generate_lesson_plan` together with its cache
side effect: the returned dict is `{"from_cache": ..., "result": ...}`,
and `cache_write` records the `_write_cache(key, parsed)` call when one
happens. -/
structure GenResult where
  from_cache : Bool
  result : JVal
  cache_write : Option (List Char × JVal)

/-- Model of `generate_lesson_plan` (source lines 453-556). -/
def generate_lesson_plan (env : GenEnv) (subject grade topic : List Char)
    (curriculum_context teacher_input : Option (List Char))
    (language classroom_context output_mode : List Char) (use_cache : Bool) : GenResult :=
  let key := cache_key subject grade topic teacher_input language (output_mode = "short".data)
  match
    (if use_cache then
      match env.cache key with
      | some v => if pyTruthy v then some v else none
      | none => none
    else none) with
  | some cached => ⟨true, cached, none⟩
  | none =>
    let cc :=
      sanitize_context
        (match curriculum_context with
         | some c => c
         | none => auto_context env.curriculum grade subject topic)
    let prompt := build_prompt cc grade subject topic language classroom_context
      teacher_input output_mode
    let llm_response_text := call_llm env.llm prompt
    let parsed := interpret llm_response_text
    ⟨false, parsed, if isDict parsed then some (key, parsed) else none⟩

/-- The `"error"` field of a result value, when the value is a dict. -/
def errField : JVal → Option JVal
  | .obj m => lookupS m ("error".data)
  | _ => none

/-- Reduction of `interpret` when the strict parse succeeds. -/
theorem interpret_of_parse (raw : List Char) (v : JVal) (h : jsonParse raw = some v) :
    interpret raw = v := by
  unfold interpret
  simp only [h]

/-- Reduction of `interpret` when the strict parse fails and the
brace-extracted substring parses. -/
theorem interpret_of_extract (raw sub : List Char) (v : JVal)
    (h1 : jsonParse raw = none) (h2 : extract_braces raw = some sub)
    (h3 : jsonParse sub = some v) : interpret raw = v := by
  unfold interpret
  simp only [h1, h2, h3]

/-- Reduction of `interpret` when the strict parse fails and the
extracted substring fails to parse. -/
theorem interpret_of_bad_extract (raw sub : List Char)
    (h1 : jsonParse raw = none) (h2 : extract_braces raw = some sub)
    (h3 : jsonParse sub = none) :
    interpret raw = .obj (jobj
      [ ("error".data, .str "Failed to parse JSON from LLM output".data)
      , ("raw".data, .str raw) ]) := by
  unfold interpret
  simp only [h1, h2, h3]

/-- Reduction of `interpret` when no brace-delimited candidate exists. -/
theorem interpret_of_no_extract (raw : List Char)
    (h1 : jsonParse raw = none) (h2 : extract_braces raw = none) :
    interpret raw = .obj (jobj
      [ ("error".data, .str "LLM did not return JSON".data)
      , ("raw".data, .str raw) ]) := by
  unfold interpret
  simp only [h1, h2]

/-- C5: the response interpreter round-trips JSON objects.  A raw text
that strict-parses to an object is returned as that object unchanged,
and when the strict parse fails but the brace-delimited substring
(first opening brace through the last closing brace) parses, the parsed
embedded value is returned. -/
theorem C5_interpret_roundtrip :
    (∀ (s : List Char) (o : JObj), jsonParse s = some (.obj o) → interpret s = .obj o)
    ∧ (∀ (s sub : List Char) (v : JVal),
        jsonParse s = none → extract_braces s = some sub → jsonParse sub = some v →
        interpret s = v) := by
  constructor
  · intro s o h
    exact interpret_of_parse s _ h
  · intro s sub v h1 h2 h3
    exact interpret_of_extract s sub v h1 h2 h3

/-- Witness for C5: a literal JSON object round-trips, and an object
embedded after a prose prefix is extracted and parsed. -/
theorem C5_witness :
    interpret ("\x7b\"title\": \"X\"\x7d".data) = .obj (jobj [("title".data, .str "X".data)])
    ∧ interpret ("Here is your plan: \x7b\"title\": \"X\"\x7d".data)
      = .obj (jobj [("title".data, .str "X".data)]) := by
  constructor
  · exact C5_interpret_roundtrip.1 _ (jobj [("title".data, .str "X".data)]) rfl
  · exact C5_interpret_roundtrip.2 _ ("\x7b\"title\": \"X\"\x7d".data) _ rfl rfl rfl

/-- C4 counterexample: on input that fails both parse attempts (here the
empty string) the interpreter returns an error record whose message is
`"LLM did not return JSON"`, not the fixed message
`"model did not return parseable JSON"` stated by the claim. -/
theorem C4_counterexample :
    interpret []
      = .obj (jobj [("error".data, .str "LLM did not return JSON".data), ("raw".data, .str [])])
    ∧ ("LLM did not return JSON".data ≠ "model did not return parseable JSON".data) := by
  exact ⟨rfl, by decide⟩

/-- C4 as amended: the interpreter is total and every path returns a
well-formed value: the strict-parse result, the parsed brace-extracted
substring, or an error record carrying one of the two fixed source
messages (`"Failed to parse JSON from LLM output"` when a brace-delimited
candidate exists but fails to parse, `"LLM did not return JSON"`
otherwise) together with the original raw text verbatim under
`"raw"`. -/
theorem C4_interpret_total_shape :
    ∀ raw : List Char,
      (jsonParse raw = some (interpret raw))
      ∨ (∃ sub, extract_braces raw = some sub ∧ jsonParse sub = some (interpret raw))
      ∨ (∃ msg, (msg = "Failed to parse JSON from LLM output".data
                 ∨ msg = "LLM did not return JSON".data)
          ∧ interpret raw
            = .obj (jobj [("error".data, .str msg), ("raw".data, .str raw)])) := by
  intro raw
  cases h1 : jsonParse raw with
  | some v => exact Or.inl (by rw [interpret_of_parse raw v h1])
  | none =>
    cases h2 : extract_braces raw with
    | some sub =>
      cases h3 : jsonParse sub with
      | some v =>
        exact Or.inr (Or.inl ⟨sub, rfl, by rw [interpret_of_extract raw sub v h1 h2 h3, h3]⟩)
      | none =>
        exact Or.inr (Or.inr ⟨_, Or.inl rfl, interpret_of_bad_extract raw sub h1 h2 h3⟩)
    | none => exact Or.inr (Or.inr ⟨_, Or.inr rfl, interpret_of_no_extract raw h1 h2⟩)

/-- Length of the content-line truncation: never above 500. -/
theorem trunc500_length_le (s : List Char) : (trunc500 s).length ≤ 500 := by
  unfold trunc500
  split
  · simp [List.length_take]
  · omega

/-- Length of the teacher-activities truncation: never above 300. -/
theorem trunc300_length_le (s : List Char) : (trunc300 s).length ≤ 300 := by
  unfold trunc300
  split
  · simp [List.length_take]
  · omega

/-- C6: the context string handed to the prompt (every context, derived
or caller-supplied, passes through `sanitize_context` before
`build_prompt`) is never longer than 4000 characters; the semicolon-
joined content string is truncated to 500 characters and the teacher-
activities string to 300, keeping 497 resp. 297 characters and appending
the `"..."` marker when cut; independently, a sanitised context over
4000 characters is hard-truncated to 3900 characters plus the
`" ... [truncated]"` marker. -/
theorem C6_context_bounded :
    (∀ raw : List Char, (sanitize_context raw).length ≤ 4000)
    ∧ (∀ s : List Char, 500 < s.length →
        trunc500 s = s.take 497 ++ "...".data ∧ (trunc500 s).length = 500)
    ∧ (∀ s : List Char, s.length ≤ 500 → trunc500 s = s)
    ∧ (∀ s : List Char, 300 < s.length →
        trunc300 s = s.take 297 ++ "...".data ∧ (trunc300 s).length = 300)
    ∧ (∀ s : List Char, s.length ≤ 300 → trunc300 s = s)
    ∧ (∀ raw : List Char, 4000 < (trimS raw).length →
        sanitize_context raw = (trimS raw).take 3900 ++ " ... [truncated]".data) := by
  refine ⟨?_, ?_, ?_, ?_, ?_, ?_⟩
  · intro raw
    simp only [sanitize_context]
    split
    · split
      · simp [List.length_take]
      · omega
    · decide
  · intro s h
    unfold trunc500
    rw [if_pos h]
    refine ⟨rfl, ?_⟩
    simp [List.length_take]
    omega
  · intro s h
    unfold trunc500
    rw [if_neg (by omega)]
  · intro s h
    unfold trunc300
    rw [if_pos h]
    refine ⟨rfl, ?_⟩
    simp [List.length_take]
    omega
  · intro s h
    unfold trunc300
    rw [if_neg (by omega)]
  · intro raw h
    have hne : ¬ raw.isEmpty := by
      cases raw with
      | nil => simp [trimS] at h
      | cons c rest => simp
    simp only [sanitize_context]
    rw [if_pos (by simpa using hne)]
    rw [if_pos h]

/-- Witness for C6: the truncations evaluated at concrete over-long
inputs. -/
theorem C6_witness :
    (sanitize_context (List.replicate 5000 'a')).length ≤ 4000
    ∧ trunc500 (List.replicate 501 'a') = List.replicate 497 'a' ++ "...".data
    ∧ trunc300 (List.replicate 301 'a') = List.replicate 297 'a' ++ "...".data := by
  refine ⟨C6_context_bounded.1 _, ?_, ?_⟩
  · have h := (C6_context_bounded.2.1 (List.replicate 501 'a') (by norm_num)).1
    rw [h, List.take_replicate]
    norm_num
  · have h := (C6_context_bounded.2.2.2.1 (List.replicate 301 'a') (by norm_num)).1
    rw [h, List.take_replicate]
    norm_num

/-- The digit-scan loop returns one of the two primary bands. -/
theorem primaryBand_cases (l : List Char) :
    primaryBand l = P13_BAND ∨ primaryBand l = P46_BAND := by
  induction l with
  | nil => exact Or.inl rfl
  | cons c rest ih =>
    simp only [primaryBand]
    split
    · split
      · exact Or.inl rfl
      · split
        · exact Or.inr rfl
        · exact Or.inl rfl
    · exact ih

/-- The digit-scan loop, characterised by the first digit of the input:
no digit defaults to the lower band; a first digit of 1-3 gives the
lower band, 4-6 the upper band, and any other digit falls out of the
loop into the lower-band default. -/
theorem primaryBand_spec (l : List Char) :
    (l.find? Char.isDigit = none → primaryBand l = P13_BAND)
    ∧ (∀ c, l.find? Char.isDigit = some c →
        primaryBand l =
          (if c.toNat - 48 = 1 ∨ c.toNat - 48 = 2 ∨ c.toNat - 48 = 3 then P13_BAND
           else if c.toNat - 48 = 4 ∨ c.toNat - 48 = 5 ∨ c.toNat - 48 = 6 then P46_BAND
           else P13_BAND)) := by
  induction l with
  | nil => exact ⟨fun _ => rfl, fun c h => by simp at h⟩
  | cons a rest ih =>
    by_cases h : a.isDigit
    · constructor
      · intro hn
        rw [List.find?_cons_of_pos _ h] at hn
        cases hn
      · intro c hc
        rw [List.find?_cons_of_pos _ h] at hc
        cases hc
        simp only [primaryBand]
        rw [if_pos h]
    · constructor
      · intro hn
        rw [List.find?_cons_of_neg _ h] at hn
        simp only [primaryBand]
        rw [if_neg h]
        exact ih.1 hn
      · intro c hc
        rw [List.find?_cons_of_neg _ h] at hc
        simp only [primaryBand]
        rw [if_neg h]
        exact ih.2 c hc

/-- C7 counterexample: `"primary 74"` is a primary-grade string with no
junior-secondary marker that contains the digit 4 (a digit in 1-6,
whose band is the upper band), yet `normalize_grade` returns the lower
band, because the left-to-right scan stops at the first digit 7 and
falls to the default. -/
theorem C7_counterexample :
    priHit (trimS (lowerS ("primary 74".data))) = true
    ∧ jssHit (trimS (lowerS ("primary 74".data))) = false
    ∧ '4' ∈ "primary 74".data
    ∧ normalize_grade ("primary 74".data) = P13_BAND
    ∧ P13_BAND ≠ P46_BAND := by
  refine ⟨rfl, rfl, by decide, rfl, by decide⟩

/-- C7 as amended: for every grade string whose lowered and trimmed form
contains a primary marker and no junior-secondary marker,
`normalize_grade` scans left to right for the first decimal digit and
maps 1-3 to the lower band and 4-6 to the upper band; with no digit at
all, or with a first digit outside 1-6, it defaults to the lower band.
In particular every primary-grade string whose first digit lies in 1-6
receives the correct band; a string whose first digit lies outside 1-6
goes to the lower band even when a later digit lies in 1-6. -/
theorem C7_normalize_grade_primary (grade : List Char)
    (hj : jssHit (trimS (lowerS grade)) = false)
    (hp : priHit (trimS (lowerS grade)) = true) :
    ((trimS (lowerS grade)).find? Char.isDigit = none → normalize_grade grade = P13_BAND)
    ∧ (∀ c, (trimS (lowerS grade)).find? Char.isDigit = some c →
        ((c.toNat - 48 = 1 ∨ c.toNat - 48 = 2 ∨ c.toNat - 48 = 3) →
          normalize_grade grade = P13_BAND)
        ∧ ((c.toNat - 48 = 4 ∨ c.toNat - 48 = 5 ∨ c.toNat - 48 = 6) →
          normalize_grade grade = P46_BAND)
        ∧ (¬ (c.toNat - 48 = 1 ∨ c.toNat - 48 = 2 ∨ c.toNat - 48 = 3)
            → ¬ (c.toNat - 48 = 4 ∨ c.toNat - 48 = 5 ∨ c.toNat - 48 = 6)
            → normalize_grade grade = P13_BAND)) := by
  have hng : normalize_grade grade = primaryBand (trimS (lowerS grade)) := by
    simp only [normalize_grade, hj, hp]
    simp
  constructor
  · intro hn
    rw [hng]
    exact (primaryBand_spec _).1 hn
  · intro c hc
    have hb := (primaryBand_spec _).2 c hc
    refine ⟨fun h123 => ?_, fun h456 => ?_, fun h1 h2 => ?_⟩
    · rw [hng, hb, if_pos h123]
    · rw [hng, hb]
      rw [if_neg ?_, if_pos h456]
      intro h123
      rcases h123 with h | h | h <;> rcases h456 with h4 | h4 | h4 <;> omega
    · rw [hng, hb, if_neg h1, if_neg h2]

/-- Witness for C7: `"Primary 4"` maps to the upper band and
`"primary"` (no digit) defaults to the lower band, by the theorem. -/
theorem C7_witness :
    jssHit (trimS (lowerS ("Primary 4".data))) = false
    ∧ priHit (trimS (lowerS ("Primary 4".data))) = true
    ∧ normalize_grade ("Primary 4".data) = P46_BAND
    ∧ normalize_grade ("primary".data) = P13_BAND := by
  refine ⟨rfl, rfl, ?_, ?_⟩
  · exact (((C7_normalize_grade_primary ("Primary 4".data) rfl rfl).2 '4' rfl).2.1 (by decide))
  · exact ((C7_normalize_grade_primary ("primary".data) rfl rfl).1 rfl)

/-- Every output of `normalize_grade` is one of the three canonical
bands or the input itself. -/
theorem normalize_grade_range (s : List Char) :
    normalize_grade s = JSS_BAND ∨ normalize_grade s = P13_BAND
    ∨ normalize_grade s = P46_BAND ∨ normalize_grade s = s := by
  simp only [normalize_grade]
  split
  · exact Or.inl rfl
  · split
    · rcases primaryBand_cases (trimS (lowerS s)) with h | h
      · exact Or.inr (Or.inl h)
      · exact Or.inr (Or.inr (Or.inl h))
    · split
      · exact Or.inl rfl
      · split
        · exact Or.inr (Or.inl rfl)
        · split
          · exact Or.inr (Or.inr (Or.inl rfl))
          · exact Or.inr (Or.inr (Or.inr rfl))

/-- A successful lookup in an association list comes from a member. -/
theorem lookupP_mem {α : Type} (l : List (List Char × α)) (k : List Char) (v : α)
    (h : lookupP l k = some v) : (k, v) ∈ l := by
  induction l with
  | nil => cases h
  | cons p rest ih =>
    cases p with
    | mk pk pv =>
      unfold lookupP at h
      split at h
      · cases h
        rename_i heq
        rw [heq]
        exact List.mem_cons_self _ _
      · exact List.mem_cons_of_mem _ (ih h)

/-- Every canonical subject key in the synonym table is a fixed point of
`normalize_subject`. -/
theorem subject_values_fixed :
    ∀ p ∈ subject_mappings, normalize_subject p.2 = p.2 := by
  decide

/-- Every output of `normalize_subject` is either the input itself or a
canonical value of the synonym table. -/
theorem normalize_subject_range (s : List Char) :
    normalize_subject s = s
    ∨ ∃ k, (k, normalize_subject s) ∈ subject_mappings := by
  simp only [normalize_subject]
  cases hl : lookupP subject_mappings (trimS (lowerS s)) with
  | none => exact Or.inl rfl
  | some v => exact Or.inr ⟨_, lookupP_mem _ _ _ hl⟩

/-- C10: both normalizers are idempotent; each canonical output
(the three grade bands and each canonical subject key of the synonym
table) is a fixed point of its normalizer; and input matched by no rule
passes through unchanged. -/
theorem C10_normalizers_idempotent :
    (∀ s, normalize_grade (normalize_grade s) = normalize_grade s)
    ∧ (∀ s, normalize_subject (normalize_subject s) = normalize_subject s)
    ∧ (normalize_grade JSS_BAND = JSS_BAND ∧ normalize_grade P13_BAND = P13_BAND
       ∧ normalize_grade P46_BAND = P46_BAND)
    ∧ (∀ p ∈ subject_mappings, normalize_subject p.2 = p.2)
    ∧ (∀ s, jssHit (trimS (lowerS s)) = false → priHit (trimS (lowerS s)) = false →
        trimS (lowerS s) ≠ "junior secondary 1–3".data →
        trimS (lowerS s) ≠ "primary 1–3".data →
        trimS (lowerS s) ≠ "primary 4–6".data →
        normalize_grade s = s)
    ∧ (∀ s, lookupP subject_mappings (trimS (lowerS s)) = none → normalize_subject s = s) := by
  have hgfix : normalize_grade JSS_BAND = JSS_BAND ∧ normalize_grade P13_BAND = P13_BAND
      ∧ normalize_grade P46_BAND = P46_BAND := ⟨rfl, rfl, rfl⟩
  refine ⟨?_, ?_, hgfix, subject_values_fixed, ?_, ?_⟩
  · intro s
    rcases normalize_grade_range s with h | h | h | h
    · rw [h, hgfix.1]
    · rw [h, hgfix.2.1]
    · rw [h, hgfix.2.2]
    · rw [h]
      exact h
  · intro s
    rcases normalize_subject_range s with h | ⟨k, hk⟩
    · rw [h]
      exact h
    · exact subject_values_fixed _ hk
  · intro s h1 h2 h3 h4 h5
    simp only [normalize_grade, h1, h2]
    simp [h3, h4, h5]
  · intro s h
    simp only [normalize_subject, h]

/-- Witness for C10: unmapped inputs pass through both normalizers
unchanged. -/
theorem C10_witness :
    normalize_grade ("nursery".data) = "nursery".data
    ∧ normalize_subject ("chemistry".data) = "chemistry".data := by
  constructor
  · exact C10_normalizers_idempotent.2.2.2.2.1 ("nursery".data) rfl rfl
      (by decide) (by decide) (by decide)
  · exact C10_normalizers_idempotent.2.2.2.2.2 ("chemistry".data) rfl

/-- The substring test agrees with list infixes. -/
theorem containsS_eq_true_iff (hay needle : List Char) :
    containsS hay needle = true ↔ needle <:+: hay := by
  induction hay with
  | nil =>
    simp [containsS, List.isEmpty_iff, List.infix_nil]
  | cons c rest ih =>
    simp [containsS, List.isPrefixOf_iff_prefix, ih, List.infix_cons_iff]

/-- Reduction of stage 1 when the grade key is absent. -/
theorem gco_from_doc_none (curriculum_data : Curriculum) (topic s g : List Char)
    (h : lookupP curriculum_data g = none) :
    gco_from_doc curriculum_data topic s g
      = errResult ("Grade ".data ++ [sqc] ++ g ++ [sqc]
          ++ " not found. Available grades: ".data
          ++ pyReprList (curriculum_data.map Prod.fst)) := by
  unfold gco_from_doc
  simp only [h]

/-- Reduction of stage 1 when the grade key is present. -/
theorem gco_from_doc_some (curriculum_data : Curriculum) (topic s g : List Char)
    (grade_data : List (List Char × JVal)) (h : lookupP curriculum_data g = some grade_data) :
    gco_from_doc curriculum_data topic s g = gco_from_grade grade_data topic s g := by
  unfold gco_from_doc
  simp only [h]

/-- Reduction of stage 2 when the subject key is absent. -/
theorem gco_from_grade_none (grade_data : List (List Char × JVal)) (topic s g : List Char)
    (h : lookupP grade_data s = none) :
    gco_from_grade grade_data topic s g
      = errResult ("Subject ".data ++ [sqc] ++ s ++ [sqc] ++ " not found in ".data ++ g
          ++ ". Available subjects: ".data ++ pyReprList (grade_data.map Prod.fst)) := by
  unfold gco_from_grade
  simp only [h]

/-- Reduction of stage 2 when the subject key is present. -/
theorem gco_from_grade_some (grade_data : List (List Char × JVal)) (topic s g : List Char)
    (subject_data : JVal) (h : lookupP grade_data s = some subject_data) :
    gco_from_grade grade_data topic s g = gco_from_subject subject_data topic s g := by
  unfold gco_from_grade
  simp only [h]

/-- Reduction of stage 3 when the topic search fails. -/
theorem gco_from_subject_none (subject_data : JVal) (topic s g : List Char)
    (h : search_topic_recursive topic subject_data = none) :
    gco_from_subject subject_data topic s g
      = errResult ("Topic ".data ++ [sqc] ++ topic ++ [sqc] ++ " not found in ".data ++ s
          ++ " for ".data ++ g) := by
  unfold gco_from_subject
  simp only [h]

/-- Reduction of stage 3 when the topic search finds an item. -/
theorem gco_from_subject_some (subject_data : JVal) (topic s g : List Char)
    (topic_data : JVal) (h : search_topic_recursive topic subject_data = some topic_data) :
    gco_from_subject subject_data topic s g = gco_project topic_data := by
  unfold gco_from_subject
  simp only [h]

/-- Every error-dict result carries the five empty collections. -/
theorem errResult_shape (msg : List Char) :
    lookupP (errResult msg) ("error".data) = some (.str msg)
    ∧ lookupP (errResult msg) ("objectives".data) = some (.arr .nil)
    ∧ lookupP (errResult msg) ("content".data) = some (.arr .nil)
    ∧ lookupP (errResult msg) ("teacher_activities".data) = some (.arr .nil)
    ∧ lookupP (errResult msg) ("student_activities".data) = some (.arr .nil)
    ∧ lookupP (errResult msg) ("resources".data) = some (.arr .nil) :=
  ⟨rfl, rfl, rfl, rfl, rfl, rfl⟩

/-- The success projection carries no `"error"` key. -/
theorem gco_project_obj_no_error (m : JObj) :
    lookupP (gco_project (.obj m)) ("error".data) = none := by
  simp only [gco_project]
  cases h : lookupS m ("TOPIC NAME".data) with
  | none => rfl
  | some v => rfl

/-- C2: the curriculum lookup is total and every failure path returns
the structured error dict: a string reason under `"error"` plus an
empty list under each of the five expected fields; when the normalised
grade key is absent the reason embeds the enumeration of the available
grade keys, and when the normalised subject key is absent the reason
embeds the enumeration of the available subject keys of that grade. -/
theorem C2_lookup_failure_shape (cur : Option Curriculum) (grade subject topic : List Char) :
    (lookupP (get_curriculum_objectives cur grade subject topic) ("error".data) = none
     ∨ ∃ msg,
        lookupP (get_curriculum_objectives cur grade subject topic) ("error".data)
          = some (.str msg)
        ∧ lookupP (get_curriculum_objectives cur grade subject topic) ("objectives".data)
          = some (.arr .nil)
        ∧ lookupP (get_curriculum_objectives cur grade subject topic) ("content".data)
          = some (.arr .nil)
        ∧ lookupP (get_curriculum_objectives cur grade subject topic) ("teacher_activities".data)
          = some (.arr .nil)
        ∧ lookupP (get_curriculum_objectives cur grade subject topic) ("student_activities".data)
          = some (.arr .nil)
        ∧ lookupP (get_curriculum_objectives cur grade subject topic) ("resources".data)
          = some (.arr .nil))
    ∧ (∀ doc : Curriculum, cur = some doc →
        lookupP doc (normalize_grade grade) = none →
        ∃ msg,
          lookupP (get_curriculum_objectives cur grade subject topic) ("error".data)
            = some (.str msg)
          ∧ containsS msg (pyReprList (doc.map Prod.fst)) = true)
    ∧ (∀ (doc : Curriculum) (gd : List (List Char × JVal)), cur = some doc →
        lookupP doc (normalize_grade grade) = some gd →
        lookupP gd (normalize_subject subject) = none →
        ∃ msg,
          lookupP (get_curriculum_objectives cur grade subject topic) ("error".data)
            = some (.str msg)
          ∧ containsS msg (pyReprList (gd.map Prod.fst)) = true) := by
  refine ⟨?_, ?_, ?_⟩
  · cases cur with
    | none => exact Or.inr ⟨_, rfl, rfl, rfl, rfl, rfl, rfl⟩
    | some doc =>
      simp only [get_curriculum_objectives]
      cases hg : lookupP doc (normalize_grade grade) with
      | none =>
        rw [gco_from_doc_none doc topic _ _ hg]
        exact Or.inr ⟨_, errResult_shape _⟩
      | some gd =>
        rw [gco_from_doc_some doc topic _ _ gd hg]
        cases hs : lookupP gd (normalize_subject subject) with
        | none =>
          rw [gco_from_grade_none gd topic _ _ hs]
          exact Or.inr ⟨_, errResult_shape _⟩
        | some sd =>
          rw [gco_from_grade_some gd topic _ _ sd hs]
          cases hsearch : search_topic_recursive topic sd with
          | none =>
            rw [gco_from_subject_none sd topic _ _ hsearch]
            exact Or.inr ⟨_, errResult_shape _⟩
          | some td =>
            rw [gco_from_subject_some sd topic _ _ td hsearch]
            cases td with
            | obj m => exact Or.inl (gco_project_obj_no_error m)
            | null => exact Or.inr ⟨_, errResult_shape _⟩
            | bool b => exact Or.inr ⟨_, errResult_shape _⟩
            | num n => exact Or.inr ⟨_, errResult_shape _⟩
            | str s => exact Or.inr ⟨_, errResult_shape _⟩
            | arr l => exact Or.inr ⟨_, errResult_shape _⟩
  · intro doc hcur hg
    subst hcur
    simp only [get_curriculum_objectives]
    rw [gco_from_doc_none doc topic _ _ hg]
    refine ⟨_, (errResult_shape _).1, ?_⟩
    refine (containsS_eq_true_iff _ _).2 (List.IsSuffix.isInfix ?_)
    exact ⟨"Grade ".data ++ [sqc] ++ normalize_grade grade ++ [sqc]
      ++ " not found. Available grades: ".data, by simp [List.append_assoc]⟩
  · intro doc gd hcur hg hs
    subst hcur
    simp only [get_curriculum_objectives]
    rw [gco_from_doc_some doc topic _ _ gd hg, gco_from_grade_none gd topic _ _ hs]
    refine ⟨_, (errResult_shape _).1, ?_⟩
    refine (containsS_eq_true_iff _ _).2 (List.IsSuffix.isInfix ?_)
    exact ⟨"Subject ".data ++ [sqc] ++ normalize_subject subject ++ [sqc]
      ++ " not found in ".data ++ normalize_grade grade ++ ". Available subjects: ".data,
      by simp [List.append_assoc]⟩

/-- Witness for C2: a concrete document with one grade and one subject;
an unknown grade reports the available grade keys, and a known grade
with an unknown subject reports the available subject keys. -/
theorem C2_witness :
    (lookupP [( "Junior Secondary 1–3".data, [("maths".data, JVal.null)] )]
        (normalize_grade ("nursery".data)) = (none : Option (List (List Char × JVal))))
    ∧ (∃ msg,
        lookupP (get_curriculum_objectives
            (some [( "Junior Secondary 1–3".data, [("maths".data, JVal.null)] )])
            ("nursery".data) ("math".data) ("x".data)) ("error".data)
          = some (.str msg)
        ∧ containsS msg (pyReprList ["Junior Secondary 1–3".data]) = true)
    ∧ (∃ msg,
        lookupP (get_curriculum_objectives
            (some [( "Junior Secondary 1–3".data, [("maths".data, JVal.null)] )])
            ("JSS 1".data) ("Unknown Subject".data) ("x".data)) ("error".data)
          = some (.str msg)
        ∧ containsS msg (pyReprList ["maths".data]) = true) := by
  refine ⟨rfl, ?_, ?_⟩
  · have h := (C2_lookup_failure_shape
      (some [( "Junior Secondary 1–3".data, [("maths".data, JVal.null)] )])
      ("nursery".data) ("math".data) ("x".data)).2.1
      [( "Junior Secondary 1–3".data, [("maths".data, JVal.null)] )] rfl rfl
    simpa using h
  · have h := (C2_lookup_failure_shape
      (some [( "Junior Secondary 1–3".data, [("maths".data, JVal.null)] )])
      ("JSS 1".data) ("Unknown Subject".data) ("x".data)).2.2
      [( "Junior Secondary 1–3".data, [("maths".data, JVal.null)] )]
      [("maths".data, JVal.null)] rfl rfl rfl
    simpa using h

/-- The substitution that claim C9 asserts for the teacher-input slot
(modelled from the claim wording): the literal placeholder only when
the input is absent, verbatim whenever it is present. -/
def verbatim_teacher_input : Option (List Char) → List Char
  | none => "None provided".data
  | some s => s

/-- C9 counterexample: a present-but-empty teacher input is substituted
as the literal `"None provided"`, not verbatim, because the source uses
the Python `or` idiom, under which the empty string is falsy. -/
theorem C9_counterexample :
    build_prompt ("c".data) ("g".data) ("s".data) ("t".data) ("l".data) ("cc".data)
      (some []) ("full".data)
    ≠ PROMPT_TEMPLATE_fmt ("c".data) ("g".data) ("s".data) ("t".data) ("l".data) ("cc".data)
      (verbatim_teacher_input (some [])) ("full".data) := by
  intro h
  have h1 : pyOrStr (some []) ("None provided".data) = "None provided".data := rfl
  have h3 : (if ("full".data : List Char) = "short".data then "short".data else "full".data)
      = "full".data := rfl
  have hl := congrArg List.length h
  simp only [build_prompt, PROMPT_TEMPLATE_fmt, verbatim_teacher_input, h1, h3,
    List.length_append, List.length_cons, List.length_nil] at hl
  omega

/-- C9 as amended: prompt assembly splices every input verbatim into the
fixed template segments, except that `teacher_input` becomes the literal
`"None provided"` when it is absent or empty, and `output_mode` is
collapsed to exactly `"short"` or `"full"`, every value other than
`"short"` giving `"full"`. -/
theorem C9_build_prompt (cc g su tp la cl : List Char) (ti : Option (List Char))
    (om : List Char) :
    (∀ s, ti = some s → s ≠ [] →
       build_prompt cc g su tp la cl ti om
       = PROMPT_TEMPLATE_fmt cc g su tp la cl s
           (if om = "short".data then "short".data else "full".data))
    ∧ ((ti = none ∨ ti = some []) →
       build_prompt cc g su tp la cl ti om
       = PROMPT_TEMPLATE_fmt cc g su tp la cl ("None provided".data)
           (if om = "short".data then "short".data else "full".data))
    ∧ (om ≠ "short".data →
       build_prompt cc g su tp la cl ti om
       = PROMPT_TEMPLATE_fmt cc g su tp la cl (pyOrStr ti ("None provided".data)) ("full".data))
    ∧ (om = "short".data →
       build_prompt cc g su tp la cl ti om
       = PROMPT_TEMPLATE_fmt cc g su tp la cl (pyOrStr ti ("None provided".data)) ("short".data)) := by
  refine ⟨?_, ?_, ?_, ?_⟩
  · intro s hs hne
    subst hs
    have hv : pyOrStr (some s) ("None provided".data) = s := by
      simp only [pyOrStr]
      rw [if_neg (by simpa using hne)]
    simp only [build_prompt, hv]
  · intro hti
    have hv : pyOrStr ti ("None provided".data) = "None provided".data := by
      rcases hti with h | h <;> subst h <;> rfl
    simp only [build_prompt, hv]
  · intro hom
    have ho : (if om = "short".data then "short".data else "full".data) = "full".data :=
      if_neg hom
    simp only [build_prompt, ho]
  · intro hom
    have ho : (if om = "short".data then "short".data else "full".data) = "short".data :=
      if_pos hom
    simp only [build_prompt, ho]

/-- Witness for C9: a present non-empty teacher input is spliced
verbatim, and a non-"short" output mode collapses to "full". -/
theorem C9_witness :
    build_prompt ("c".data) ("g".data) ("s".data) ("t".data) ("l".data) ("cc".data)
      (some ("chalk".data)) ("Short".data)
    = PROMPT_TEMPLATE_fmt ("c".data) ("g".data) ("s".data) ("t".data) ("l".data) ("cc".data)
      ("chalk".data) ("full".data) := by
  have h := (C9_build_prompt ("c".data) ("g".data) ("s".data) ("t".data) ("l".data) ("cc".data)
    (some ("chalk".data)) ("Short".data)).1 ("chalk".data) rfl (by decide)
  rw [h]
  rfl

/-- When the Gemini call raises and the HTTP branch is unconfigured or
also raises, `_call_llm` catches both and returns the serialised
offline fallback template. -/
theorem call_llm_fallback (env : LlmEnv) (p gmsg : List Char)
    (hg : env.gemini = .raises gmsg)
    (hh : env.http_configured = false ∨ ∃ m, env.http = .raises m) :
    call_llm env p = jsonDumps offline_fallback_plan := by
  unfold call_llm
  have h1 : (if env.gemini_configured then
      match env.gemini with
      | .returns t => if !t.isEmpty then some (trimS t) else none
      | .raises _ => none
    else none) = none := by
    cases henv : env.gemini_configured
    · simp
    · simp [hg]
  rw [h1]
  have h2 : (if env.http_configured then
      match env.http with
      | .returns t => some t
      | .raises _ => none
    else none) = none := by
    rcases hh with hh | ⟨m, hm⟩
    · simp [hh]
    · cases henv : env.http_configured <;> simp [hm]
  rw [h2]

set_option maxRecDepth 10000 in
/-- Parsing the serialised offline template returns the template. -/
theorem interpret_offline_fallback :
    interpret (jsonDumps offline_fallback_plan) = offline_fallback_plan := rfl

/-- C1 as amended: when the external model call raises (and the HTTP
fallback is unconfigured or also fails) and the request is not served
from cache, `generate_lesson_plan` catches the failure and returns a
record with `from_cache` false whose `result` is the offline fallback
sample lesson plan, which carries no `"error"` field — not an error
record; no exception propagates (the embedding is total). -/
theorem C1_provider_failure_returns_fallback (env : GenEnv)
    (subject grade topic : List Char) (cc ti : Option (List Char))
    (lang cl om : List Char) (uc : Bool) (gmsg : List Char)
    (hg : env.llm.gemini = .raises gmsg)
    (hh : env.llm.http_configured = false ∨ ∃ m, env.llm.http = .raises m)
    (hmiss : uc = false
      ∨ env.cache (cache_key subject grade topic ti lang (om = "short".data)) = none) :
    (generate_lesson_plan env subject grade topic cc ti lang cl om uc).from_cache = false
    ∧ (generate_lesson_plan env subject grade topic cc ti lang cl om uc).result
      = offline_fallback_plan
    ∧ errField (generate_lesson_plan env subject grade topic cc ti lang cl om uc).result
      = none := by
  have hscrut : (if uc then
      match env.cache (cache_key subject grade topic ti lang (om = "short".data)) with
      | some v => if pyTruthy v then some v else none
      | none => none
    else none) = none := by
    rcases hmiss with h | h
    · simp [h]
    · cases uc <;> simp [h]
  have hres : generate_lesson_plan env subject grade topic cc ti lang cl om uc
      = ⟨false, offline_fallback_plan,
          some (cache_key subject grade topic ti lang (om = "short".data),
            offline_fallback_plan)⟩ := by
    simp only [generate_lesson_plan]
    rw [hscrut]
    rw [call_llm_fallback env.llm _ gmsg hg hh]
    rw [interpret_offline_fallback]
    rfl
  rw [hres]
  exact ⟨rfl, rfl, rfl⟩

/-- A concrete environment for C1: empty cache, Gemini configured but
raising, HTTP branch unconfigured. -/
def c1_env : GenEnv :=
  ⟨fun _ => none, none, ⟨true, .raises ("Read timed out".data), false, .returns []⟩⟩

set_option maxRecDepth 100000 in
/-- C1 counterexample: when the model call raises a timeout, the
orchestrator returns `from_cache` false but the `result` is the offline
fallback sample plan, which carries no `"error"` field — not an Error
Record carrying the failure reason, as the claim states. -/
theorem C1_counterexample :
    (generate_lesson_plan c1_env ("Math".data) ("Primary 4".data) ("Fractions".data)
        (some ("ctx".data)) none ("English".data) ("rural".data) ("full".data) true).from_cache
      = false
    ∧ (generate_lesson_plan c1_env ("Math".data) ("Primary 4".data) ("Fractions".data)
        (some ("ctx".data)) none ("English".data) ("rural".data) ("full".data) true).result
      = offline_fallback_plan
    ∧ errField (generate_lesson_plan c1_env ("Math".data) ("Primary 4".data) ("Fractions".data)
        (some ("ctx".data)) none ("English".data) ("rural".data) ("full".data) true).result
      = none := ⟨rfl, rfl, rfl⟩

/-- Witness for C1: the amended theorem applied to the concrete failing
environment, with no caller-supplied context. -/
theorem C1_witness :
    c1_env.llm.gemini = ProviderOutcome.raises ("Read timed out".data)
    ∧ c1_env.llm.http_configured = false
    ∧ (generate_lesson_plan c1_env ("Math".data) ("Primary 4".data) ("Fractions".data)
        none none ("English".data) ("rural".data) ("full".data) true).result
      = offline_fallback_plan := by
  refine ⟨rfl, rfl, ?_⟩
  exact (C1_provider_failure_returns_fallback c1_env ("Math".data) ("Primary 4".data)
    ("Fractions".data) none none ("English".data) ("rural".data) ("full".data) true
    ("Read timed out".data) rfl (Or.inl rfl) (Or.inr rfl)).2.1

/-- C8 as amended: the cache-provenance flag is true exactly when
caching is enabled and the orchestrator's own file cache holds a truthy
record under the key derived from (subject, grade, topic,
teacher_input-or-empty, language, output_mode == "short") — a key in
which `curriculum_context` and `classroom_context` play no part — and
the orchestrator performs this cache read (and the corresponding write
on a miss) itself. -/
theorem C8_from_cache_iff (env : GenEnv) (subject grade topic : List Char)
    (cc ti : Option (List Char)) (lang cl om : List Char) (uc : Bool) :
    (generate_lesson_plan env subject grade topic cc ti lang cl om uc).from_cache = true
    ↔ (uc = true
       ∧ ∃ v, env.cache (cache_key subject grade topic ti lang (om = "short".data)) = some v
           ∧ pyTruthy v = true) := by
  simp only [generate_lesson_plan]
  cases uc with
  | false => simp
  | true =>
    cases hc : env.cache (cache_key subject grade topic ti lang (om = "short".data)) with
    | none => simp
    | some v =>
      cases ht : pyTruthy v with
      | false => simp [ht]
      | true => simp [ht]

/-- A cached record for the C8 scenarios. -/
def c8_plan : JVal := .obj (jobj [("title".data, .str "Cached plan".data)])

/-- The key the orchestrator derives for the C8 scenarios; note that it
is built from six components only. -/
def c8_key : List Char :=
  cache_key ("maths".data) ("p4".data) ("fractions".data) none ("English".data) false

/-- An environment whose cache holds exactly one record, under
`c8_key`. -/
def c8_env : GenEnv :=
  ⟨fun k => if k = c8_key then some c8_plan else none, none,
    ⟨false, .returns [], false, .returns []⟩⟩

/-- An environment with an empty cache and no provider configured. -/
def c8_env_empty : GenEnv :=
  ⟨fun _ => none, none, ⟨false, .returns [], false, .returns []⟩⟩

set_option maxRecDepth 100000 in
/-- C8 counterexample: one stored record serves two requests whose full
input tuples differ (in `curriculum_context` and `classroom_context`),
so the flag is not tied to an identical full input tuple; and the
orchestrator itself writes its cache on a miss, so it does perform
caching logic. -/
theorem C8_counterexample :
    (generate_lesson_plan c8_env ("maths".data) ("p4".data) ("fractions".data)
        (some ("ctx".data)) none ("English".data) ("rural".data) ("full".data) true).from_cache
      = true
    ∧ (generate_lesson_plan c8_env ("maths".data) ("p4".data) ("fractions".data)
        (some ("other ctx".data)) none ("English".data) ("urban".data) ("full".data) true).from_cache
      = true
    ∧ ("rural".data ≠ "urban".data)
    ∧ (generate_lesson_plan c8_env_empty ("maths".data) ("p4".data) ("fractions".data)
        (some ("ctx".data)) none ("English".data) ("rural".data) ("full".data) true).cache_write
      = some (c8_key, offline_fallback_plan) := by
  refine ⟨rfl, rfl, by decide, rfl⟩

/-- Witness for C8: the iff applied to the concrete single-record
environment. -/
theorem C8_witness :
    (generate_lesson_plan c8_env ("maths".data) ("p4".data) ("fractions".data)
        none none ("English".data) ("urban".data) ("full".data) true).from_cache = true := by
  refine (C8_from_cache_iff c8_env ("maths".data) ("p4".data) ("fractions".data)
    none none ("English".data) ("urban".data) ("full".data) true).mpr ⟨rfl, c8_plan, ?_, rfl⟩
  rfl

/-- What every value returned by the topic search satisfies: it is a
dict carrying a `"TOPIC NAME"` string whose lowered, trimmed form
matches the lowered, trimmed query by bidirectional containment. -/
def topicHit (ql : List Char) (t : JVal) : Prop :=
  ∃ (m : JObj) (name : List Char), t = .obj m
    ∧ lookupS m ("TOPIC NAME".data) = some (.str name)
    ∧ bidiMatch (trimS (lowerS name)) ql = true

/-- A topic-item match only returns items that satisfy `topicHit`. -/
theorem matchTopicItem_sound (ql : List Char) (ti t : JVal)
    (h : matchTopicItem ql ti = some t) : topicHit ql t := by
  unfold matchTopicItem at h
  split at h
  · rename_i m
    split at h
    · rename_i name hname
      split at h
      · rename_i hmatch
        cases h
        exact ⟨m, name, rfl, hname, hmatch⟩
      · cases h
    · cases h
  · cases h

/-- The TOPICS scan only returns items that satisfy `topicHit`. -/
theorem scanTopics_sound (ql : List Char) : (l : JArr) → (t : JVal) →
    scanTopics ql l = some t → topicHit ql t
  | .nil, _, h => by cases h
  | .cons v rest, t, h => by
    unfold scanTopics at h
    split at h
    · rename_i r hm
      cases h
      exact matchTopicItem_sound ql v _ hm
    · exact scanTopics_sound ql rest t h

/-- One sub-theme only yields items that satisfy `topicHit`. -/
theorem subThemeScan_sound (ql : List Char) (v t : JVal)
    (h : subThemeScan ql v = some t) : topicHit ql t := by
  unfold subThemeScan at h
  split at h
  · rename_i m
    split at h
    · rename_i topics heq
      exact scanTopics_sound ql topics _ h
    · cases h
  · cases h

/-- The SUB THEMES scan only returns items that satisfy `topicHit`. -/
theorem scanSubThemes_sound (ql : List Char) : (l : JArr) → (t : JVal) →
    scanSubThemes ql l = some t → topicHit ql t
  | .nil, _, h => by cases h
  | .cons v rest, t, h => by
    unfold scanSubThemes at h
    split at h
    · rename_i r hm
      cases h
      exact subThemeScan_sound ql v _ hm
    · exact scanSubThemes_sound ql rest t h

/-- One theme only yields items that satisfy `topicHit`. -/
theorem themeScan_sound (ql : List Char) (v t : JVal)
    (h : themeScan ql v = some t) : topicHit ql t := by
  unfold themeScan at h
  split at h
  · rename_i m
    split at h
    · rename_i sub_themes heq
      exact scanSubThemes_sound ql sub_themes _ h
    · cases h
  · cases h

/-- The THEMES scan only returns items that satisfy `topicHit`. -/
theorem scanThemes_sound (ql : List Char) : (l : JArr) → (t : JVal) →
    scanThemes ql l = some t → topicHit ql t
  | .nil, _, h => by cases h
  | .cons v rest, t, h => by
    unfold scanThemes at h
    split at h
    · rename_i r hm
      cases h
      exact themeScan_sound ql v _ hm
    · exact scanThemes_sound ql rest t h

/-- Soundness of the recursive topic search: everything it returns is a
topic record matching the query bidirectionally. -/
theorem search_topic_recursive_sound (q : List Char) (d t : JVal)
    (h : search_topic_recursive q d = some t) : topicHit (trimS (lowerS q)) t := by
  have H := search_topic_recursive.mutual_induct q
    (fun d => ∀ t, search_topic_recursive q d = some t → topicHit (trimS (lowerS q)) t)
    (fun l => ∀ t, searchArrItems q l = some t → topicHit (trimS (lowerS q)) t)
    (fun o => ∀ t, searchObjValues q o = some t → topicHit (trimS (lowerS q)) t)
    ?_ ?_ ?_ ?_ ?_ ?_ ?_ ?_ ?_ ?_
  · exact H.1 d t h
  · intro fields r hdrill t ht
    simp only [search_topic_recursive] at ht
    simp only [hdrill] at ht
    cases ht
    split at hdrill
    · exact scanThemes_sound _ _ _ hdrill
    · cases hdrill
  · intro fields hdrill ih t ht
    simp only [search_topic_recursive] at ht
    simp only [hdrill] at ht
    exact ih t ht
  · intro items ih t ht
    simp only [search_topic_recursive] at ht
    exact ih t ht
  · intro v h1 h2 t ht
    cases v with
    | obj m => exact absurd rfl (h1 m)
    | arr l => exact absurd rfl (h2 l)
    | null => simp only [search_topic_recursive] at ht; exact Option.noConfusion ht
    | bool b => simp only [search_topic_recursive] at ht; exact Option.noConfusion ht
    | num n => simp only [search_topic_recursive] at ht; exact Option.noConfusion ht
    | str s => simp only [search_topic_recursive] at ht; exact Option.noConfusion ht
  · intro t ht
    simp only [searchArrItems] at ht
    exact Option.noConfusion ht
  · intro v rest r hif ihv t ht
    simp only [searchArrItems] at ht
    simp only [hif] at ht
    cases ht
    split at hif
    · exact ihv _ hif
    · cases hif
  · intro v rest hif ihv ihrest t ht
    simp only [searchArrItems] at ht
    simp only [hif] at ht
    exact ihrest t ht
  · intro t ht
    simp only [searchObjValues] at ht
    exact Option.noConfusion ht
  · intro key v rest r hif ihv t ht
    simp only [searchObjValues] at ht
    simp only [hif] at ht
    cases ht
    split at hif
    · exact ihv _ hif
    · cases hif
  · intro key v rest hif ihv ihrest t ht
    simp only [searchObjValues] at ht
    simp only [hif] at ht
    exact ihrest t ht

/-- A topic record named exactly "Fractions and Decimals". -/
def c3_frac_topic : JVal :=
  .obj (jobj
    [ ("TOPIC NAME".data, .str "Fractions and Decimals".data)
    , ("PERFORMANCE OBJECTIVES".data, .arr (jarr [.str "Identify fractions".data])) ])

/-- A subject subtree with the canonical THEMES / SUB THEMES / TOPICS
nesting around `c3_frac_topic`. -/
def c3_proper_doc : JVal :=
  .obj (jobj
    [ ("PRIMARY 4".data, .obj (jobj
        [ ("THEMES".data, .arr (jarr
            [ .obj (jobj
                [ ("SUB THEMES".data, .arr (jarr
                    [ .obj (jobj
                        [ ("TOPICS".data, .arr (jarr [c3_frac_topic])) ]) ])) ]) ])) ])) ])

/-- C3 counterexample: a dict node that itself carries a `"TOPIC NAME"`
field whose name matches the query bidirectionally is NOT found by the
search, because the comparison only happens for topic items reached
through the THEMES -> SUB THEMES -> TOPICS drill-down. -/
theorem C3_counterexample :
    bidiMatch (trimS (lowerS ("Fractions and Decimals".data)))
      (trimS (lowerS ("fractions".data))) = true
    ∧ search_topic_recursive ("fractions".data)
        (.obj (jobj [("TOPIC NAME".data, .str "Fractions and Decimals".data)])) = none := by
  exact ⟨rfl, rfl⟩

/-- C3 as amended: the recursive search compares names only at topic
items reached by drilling `"THEMES"` -> `"SUB THEMES"` -> `"TOPICS"`
from a dict node, using bidirectional case-insensitive trimmed
containment, first match in depth-first order; every returned value is
such a matching topic record, and a topic named exactly
"Fractions and Decimals" properly nested under that structure is found
by querying "fractions". -/
theorem C3_search_drilldown :
    (∀ (q : List Char) (d t : JVal), search_topic_recursive q d = some t →
        topicHit (trimS (lowerS q)) t)
    ∧ search_topic_recursive ("fractions".data) c3_proper_doc = some c3_frac_topic :=
  ⟨search_topic_recursive_sound, rfl⟩

/-- Witness for C3: the soundness conjunct applied to the concrete
drill-down document. -/
theorem C3_witness :
    topicHit (trimS (lowerS ("fractions".data))) c3_frac_topic :=
  C3_search_drilldown.1 ("fractions".data) c3_proper_doc c3_frac_topic rfl
